import Mathlib

/-!
Verification of the SocialPredict JavaScript SDK core: the HTTP transport
(token injection, error normalization) and the shared resource-method
conventions (required-field validation, falsy-argument guards, date
normalization).  JavaScript values are shallowly embedded as `JSVal`,
objects as association lists, and each resource method as a function from
its arguments to `Except SdkError Request`: an `Except.error` result models
a synchronous throw raised before the method's single transport call, and
an `Except.ok` result is the request descriptor handed to the transport.
Numbers are modelled as integers, which covers every numeric value the SDK
and its test suite exchange (ids, amounts, status codes, epoch
milliseconds).
-/

deriving instance DecidableEq for Except

namespace SocialPredict

/-- A JavaScript value as it flows through the SDK: `undef` and `null` are
the two nullish values, `date ms` is a `Date` holding an epoch-millisecond
timestamp. -/
inductive JSVal where
  | undef
  | null
  | bool (b : Bool)
  | num (n : Int)
  | str (s : String)
  | date (ms : Int)
deriving DecidableEq, Repr

/-- A JavaScript object: an association list of property names to values.
JavaScript objects never hold duplicate keys, so lookups read the first
binding. -/
def Obj := List (String × JSVal)
deriving DecidableEq, Repr

instance : Append Obj := ⟨List.append⟩

/-- Property access `o[k]`: the stored value, or `undefined` when the key
is absent. -/
def getProp (o : Obj) (k : String) : JSVal :=
  match o with
  | [] => .undef
  | (k', v) :: rest => if k' = k then v else getProp rest k

/-- Property update `o[k] = v`: replaces the binding in place when the key
exists (JavaScript objects keep the original insertion position on
overwrite), otherwise appends it. -/
def setProp (o : Obj) (k : String) (v : JSVal) : Obj :=
  match o with
  | [] => [(k, v)]
  | (k', v') :: rest => if k' = k then (k, v) :: rest else (k', v') :: setProp rest k v

/-- JavaScript truthiness: `undefined`, `null`, `false`, `0` and `""` are
falsy; `Date` objects are always truthy. -/
def truthy : JSVal → Bool
  | .undef => false
  | .null => false
  | .bool b => b
  | .num n => n != 0
  | .str s => s != ""
  | .date _ => true

/-- JavaScript `a === undefined || a === null`, the absence test used by
`validateRequired`. -/
def isAbsent (v : JSVal) : Bool := v == .undef || v == .null

/-- String coercion as performed by template literals.  Integral numbers
print exactly as JavaScript prints them; the SDK only ever embeds ids,
amounts, outcomes and usernames in paths. -/
def jsToStr : JSVal → String
  | .undef => "undefined"
  | .null => "null"
  | .bool b => if b then "true" else "false"
  | .num n => toString n
  | .str s => s
  | .date ms => toString ms

/-- The SDK's uniform error value (`SocialPredictError` from errors.js).
`message` and `code` stay `JSVal` because the response interceptor copies
whatever the server body held in `message` / `error`; `statusCode` is
always a number at every construction site; `data` carries the full
response body when one was received (`none` models the constructor default
`null`). -/
structure SocialPredictError where
  message : JSVal
  statusCode : Int
  code : JSVal
  data : Option Obj
deriving DecidableEq, Repr

/-- errors.js: `isNetworkError()` is `this.code === 'NETWORK_ERROR'`. -/
def SocialPredictError.isNetworkError (e : SocialPredictError) : Bool :=
  e.code == JSVal.str "NETWORK_ERROR"

/-- errors.js: `isAuthError()` is `this.statusCode === 401 || this.statusCode === 403`. -/
def SocialPredictError.isAuthError (e : SocialPredictError) : Bool :=
  e.statusCode == 401 || e.statusCode == 403

/-- errors.js: `isValidationError()` is `this.statusCode === 400`. -/
def SocialPredictError.isValidationError (e : SocialPredictError) : Bool :=
  e.statusCode == 400

/-- errors.js: `isNotFoundError()` is `this.statusCode === 404`. -/
def SocialPredictError.isNotFoundError (e : SocialPredictError) : Bool :=
  e.statusCode == 404

/-- errors.js: `isServerError()` is `this.statusCode >= 500`. -/
def SocialPredictError.isServerError (e : SocialPredictError) : Bool :=
  decide (500 ≤ e.statusCode)

/-- The failure object axios hands to the response interceptor:
`response` is the `(status, body)` pair when the server answered,
`request` is the truthiness of `error.request` (a request was sent but no
response arrived), `code` is `error.code` and `message` is `error.message`. -/
structure AxiosError where
  response : Option (Int × Obj)
  request : Bool
  code : Option String
  message : String
deriving DecidableEq, Repr

/-- http-client.js: the network-failure test of the response interceptor,
`error.request || error.code === 'ECONNABORTED' || error.message === 'Network Error'`. -/
def netSignal (e : AxiosError) : Bool :=
  e.request || e.code == some "ECONNABORTED" || e.message == "Network Error"

/-- http-client.js response interceptor: converts every axios failure into
exactly one `SocialPredictError`, in this decision order: a received
non-2xx response; otherwise a network-level failure; otherwise an unknown
failure.  `data.message || default` and `data.error || default` are the
JavaScript `||` operator, hence truthiness tests. -/
def classifyError (e : AxiosError) : SocialPredictError :=
  match e.response with
  | some (status, data) =>
      { message := if truthy (getProp data "message") then getProp data "message"
                   else JSVal.str ("HTTP " ++ toString status ++ " Error")
        statusCode := status
        code := if truthy (getProp data "error") then getProp data "error"
                else JSVal.str "API_ERROR"
        data := some data }
  | none =>
      if netSignal e then
        { message := JSVal.str "Network error - unable to reach server"
          statusCode := 0
          code := JSVal.str "NETWORK_ERROR"
          data := none }
      else
        { message := JSVal.str (if e.message = "" then "Unexpected error" else e.message)
          statusCode := 0
          code := JSVal.str "UNKNOWN_ERROR"
          data := none }

/-- Constructor options of `HttpClient` / `SocialPredictClient`:
`none` models an option the caller left out. -/
structure HttpClientOptions where
  token : Option String
  timeout : Option Int
  headers : Obj
deriving DecidableEq, Repr

/-- The mutable state of an `HttpClient` instance: base URL, in-memory
bearer token (`none` is JavaScript `null`), request timeout, and the axios
default headers assembled at construction. -/
structure HttpClientState where
  baseURL : String
  token : Option String
  timeout : Int
  defaultHeaders : Obj
deriving DecidableEq, Repr

/-- Truthiness of the stored token (`this.token` in a boolean position):
`null` and the empty string are falsy. -/
def tokenTruthy : Option String → Bool
  | none => false
  | some s => s != ""

/-- Object spread `{ ...base, ...extra }` restricted to the second
operand: each entry of `extra` overrides or extends `base` in order. -/
def spreadInto (base : Obj) (extra : Obj) : Obj :=
  extra.foldl (fun acc kv => setProp acc kv.1 kv.2) base

/-- http-client.js constructor: `this.token = options.token || null`,
`timeout: options.timeout || 10000`, and default headers
`{ 'Content-Type': 'application/json', ...options.headers }`. -/
def mkHttpClient (baseURL : String) (o : HttpClientOptions) : HttpClientState :=
  { baseURL := baseURL
    token := if tokenTruthy o.token then o.token else none
    timeout := match o.timeout with
      | some t => if t == 0 then 10000 else t
      | none => 10000
    defaultHeaders := spreadInto [("Content-Type", JSVal.str "application/json")] o.headers }

/-- http-client.js request interceptor:
`if (this.token && !config.headers.Authorization) config.headers.Authorization = 'Bearer ' + this.token`. -/
def addAuthHeader (token : Option String) (headers : Obj) : Obj :=
  match token with
  | some t =>
      if t != "" && !(truthy (getProp headers "Authorization")) then
        setProp headers "Authorization" (JSVal.str ("Bearer " ++ t))
      else headers
  | none => headers

/-- The request descriptor a transport verb hands to axios after the
request interceptor ran: verb, path, query parameters, JSON body, and the
final header object. -/
structure Request where
  method : String
  path : String
  params : Obj
  body : Obj
  headers : Obj
deriving DecidableEq, Repr

/-- One outgoing call through the axios instance: the per-call config
starts from the client's default headers and the request interceptor then
injects the bearer token. -/
def issueRequest (st : HttpClientState) (method path : String) (params body : Obj) : Request :=
  { method := method
    path := path
    params := params
    body := body
    headers := addAuthHeader st.token st.defaultHeaders }

/-- http-client.js `get(path, params)`. -/
def HttpClient.get (st : HttpClientState) (path : String) (params : Obj) : Request :=
  issueRequest st "GET" path params []

/-- http-client.js `post(path, data)`. -/
def HttpClient.post (st : HttpClientState) (path : String) (data : Obj) : Request :=
  issueRequest st "POST" path [] data

/-- http-client.js `put(path, data)`. -/
def HttpClient.put (st : HttpClientState) (path : String) (data : Obj) : Request :=
  issueRequest st "PUT" path [] data

/-- http-client.js `patch(path, data)`. -/
def HttpClient.patch (st : HttpClientState) (path : String) (data : Obj) : Request :=
  issueRequest st "PATCH" path [] data

/-- http-client.js `delete(path)`. -/
def HttpClient.delete (st : HttpClientState) (path : String) : Request :=
  issueRequest st "DELETE" path [] []

/-- http-client.js `setToken(token)`: `this.token = token`. -/
def HttpClient.setToken (st : HttpClientState) (token : String) : HttpClientState :=
  { st with token := some token }

/-- http-client.js `clearToken()`: `this.token = null`. -/
def HttpClient.clearToken (st : HttpClientState) : HttpClientState :=
  { st with token := none }

/-- index.js `isAuthenticated()`: `!!this.httpClient.token`. -/
def isAuthenticated (st : HttpClientState) : Bool :=
  tokenTruthy st.token

/-- Left-pads a number to two digits. -/
def pad2 (n : Nat) : String :=
  if n < 10 then "0" ++ toString n else toString n

/-- Left-pads a number to three digits. -/
def pad3 (n : Nat) : String :=
  if n < 10 then "00" ++ toString n
  else if n < 100 then "0" ++ toString n
  else toString n

/-- Left-pads a number to four digits. -/
def pad4 (n : Nat) : String :=
  if n < 10 then "000" ++ toString n
  else if n < 100 then "00" ++ toString n
  else if n < 1000 then "0" ++ toString n
  else toString n

/-- Left-pads a number to six digits. -/
def pad6 (n : Nat) : String :=
  if n < 10 then "00000" ++ toString n
  else if n < 100 then "0000" ++ toString n
  else if n < 1000 then "000" ++ toString n
  else if n < 10000 then "00" ++ toString n
  else if n < 100000 then "0" ++ toString n
  else toString n

/-- Proleptic-Gregorian date of a day count since 1970-01-01 (the civil
calendar algorithm).  The era is taken with floor division, which keeps
`doe` in `[0, 146096]` for every day count, negative ones included; every
later division then has a non-negative dividend and a positive divisor. -/
def civilFromDays (z0 : Int) : Int × Nat × Nat :=
  let z := z0 + 719468
  let era : Int := Int.fdiv z 146097
  let doe : Int := z - era * 146097
  let yoe : Int := (doe - doe / 1460 + doe / 36524 - doe / 146096) / 365
  let y : Int := yoe + era * 400
  let doy : Int := doe - (365 * yoe + yoe / 4 - yoe / 100)
  let mp : Int := (5 * doy + 2) / 153
  let d : Int := doy - (153 * mp + 2) / 5 + 1
  let m : Int := mp + (if mp < 10 then 3 else -9)
  (y + (if m ≤ 2 then 1 else 0), m.toNat, d.toNat)

/-- Year field of `Date.prototype.toISOString`: four digits inside
0000-9999, the expanded sign-and-six-digit form outside. -/
def padYear (y : Int) : String :=
  if 0 ≤ y ∧ y ≤ 9999 then pad4 y.toNat
  else if y < 0 then "-" ++ pad6 (-y).toNat
  else "+" ++ pad6 y.toNat

/-- `Date.prototype.toISOString` on an epoch-millisecond timestamp: the
ISO-8601 UTC form "YYYY-MM-DDTHH:MM:SS.mmmZ". -/
def toISOString (ms : Int) : String :=
  let day : Int := Int.fdiv ms 86400000
  let t : Nat := (ms - day * 86400000).toNat
  let ymd := civilFromDays day
  padYear ymd.1 ++ "-" ++ pad2 ymd.2.1 ++ "-" ++ pad2 ymd.2.2 ++ "T" ++
    pad2 (t / 3600000) ++ ":" ++ pad2 (t / 60000 % 60) ++ ":" ++
    pad2 (t / 1000 % 60) ++ "." ++ pad3 (t % 1000) ++ "Z"

/-- base.js `formatDate(date)`: a `Date` instance becomes its
`toISOString()` rendering; every other value (in particular every string)
is returned unchanged. -/
def formatDate : JSVal → JSVal
  | .date ms => .str (toISOString ms)
  | v => v

/-- A value thrown by the SDK: either a plain `new Error(message)` (used
by every local validation guard) or a `SocialPredictError` (produced only
by the transport's response interceptor). -/
inductive SdkError where
  | plainErr (message : String)
  | spErr (e : SocialPredictError)
deriving DecidableEq, Repr

/-- Whether a thrown value is a `SocialPredictError` (the spec's
`ErrorType`) rather than a plain `Error`. -/
def SdkError.isSocialPredictError : SdkError → Bool
  | .spErr _ => true
  | .plainErr _ => false

/-- The required-list entries whose value is absent from the parameter
object: base.js `required.filter(p => params[p] === undefined || params[p] === null)`. -/
def missingParams (params : Obj) (required : List String) : List String :=
  required.filter (fun p => isAbsent (getProp params p))

/-- base.js `validateRequired(params, required)`: throws one plain `Error`
naming every missing parameter, comma-joined in the order of `required`. -/
def validateRequired (params : Obj) (required : List String) : Except SdkError Unit :=
  if 0 < (missingParams params required).length then
    .error (.plainErr ("Missing required parameters: " ++
      String.intercalate ", " (missingParams params required)))
  else
    .ok ()

/-- Digits-only parse used by string-to-number coercion. -/
def parseDigits (s : String) : Option Nat :=
  if s = "" then none
  else if s.all Char.isDigit then
    some (s.foldl (fun a c => a * 10 + (c.toNat - 48)) 0)
  else none

/-- JavaScript ToNumber on a string, for the integer literals the SDK
exchanges (`none` models NaN; fractional, hexadecimal and exponent forms
are outside the SDK's value set). -/
def strToNumber (s : String) : Option Int :=
  let t := s.trim
  if t = "" then some 0
  else if t.startsWith "-" then (parseDigits (t.drop 1)).map (fun n => -(n : Int))
  else if t.startsWith "+" then (parseDigits (t.drop 1)).map (fun n => (n : Int))
  else (parseDigits t).map (fun n => (n : Int))

/-- JavaScript `v <= 0`: numeric comparison after ToNumber coercion, false
when the coercion yields NaN (in particular for `undefined`). -/
def jsLeZero (v : JSVal) : Bool :=
  match v with
  | .num n => decide (n ≤ 0)
  | .bool b => !b
  | .null => true
  | .undef => false
  | .str s => match strToNumber s with
      | some n => decide (n ≤ 0)
      | none => false
  | .date ms => decide (ms ≤ 0)

/-- JavaScript `v.length < n`: only strings expose `length` here; on any
other value the property is `undefined` and the comparison is false. -/
def jsLengthLt (v : JSVal) (n : Int) : Bool :=
  match v with
  | .str s => decide ((s.length : Int) < n)
  | _ => false

/-- JavaScript `v.length > n`, same convention as `jsLengthLt`. -/
def jsLengthGt (v : JSVal) (n : Int) : Bool :=
  match v with
  | .str s => decide (n < (s.length : Int))
  | _ => false

/-- One side of the email pattern: non-empty and free of whitespace (the
surrounding `splitOn` already rules out an `@`). -/
def emailSideOk (s : String) : Bool :=
  s != "" && s.all (fun c => !c.isWhitespace)

/-- Whether a dot occurs strictly inside the string (neither first nor
last character), which is exactly when `[^\s@]+\.[^\s@]+` can match it. -/
def hasInnerDot (s : String) : Bool :=
  ((s.drop 1).dropRight 1).contains '.'

/-- admin.js email check, the regex `^[^\s@]+@[^\s@]+\.[^\s@]+$`: exactly
one `@`, no whitespace, non-empty local part, and a domain with an
interior dot. -/
def emailMatches (s : String) : Bool :=
  match s.splitOn "@" with
  | [lhs, rhs] => emailSideOk lhs && emailSideOk rhs && hasInnerDot rhs
  | _ => false

/-- `RegExp.prototype.test` coerces its argument to a string first. -/
def emailTest (v : JSVal) : Bool :=
  emailMatches (jsToStr v)

/-- betting.js `placeBet(betData)`. -/
def BettingResource.placeBet (st : HttpClientState) (betData : Obj) : Except SdkError Request :=
  match validateRequired betData ["marketId", "amount", "outcome"] with
  | .error e => .error e
  | .ok _ =>
      if jsLeZero (getProp betData "amount") then
        .error (.plainErr "Bet amount must be greater than 0")
      else
        .ok (HttpClient.post st "/v0/bet" betData)

/-- betting.js `sellPosition(sellData)`. -/
def BettingResource.sellPosition (st : HttpClientState) (sellData : Obj) : Except SdkError Request :=
  match validateRequired sellData ["marketId", "amount", "outcome"] with
  | .error e => .error e
  | .ok _ =>
      if jsLeZero (getProp sellData "amount") then
        .error (.plainErr "Sell amount must be greater than 0")
      else
        .ok (HttpClient.post st "/v0/sell" sellData)

/-- betting.js `getUserPosition(marketId)`. -/
def BettingResource.getUserPosition (st : HttpClientState) (marketId : JSVal) : Except SdkError Request :=
  if !(truthy marketId) then
    .error (.plainErr "Market ID is required")
  else
    .ok (HttpClient.get st ("/v0/userposition/" ++ jsToStr marketId) [])

/-- markets.js `get(marketId)`. -/
def MarketsResource.get (st : HttpClientState) (marketId : JSVal) : Except SdkError Request :=
  if !(truthy marketId) then
    .error (.plainErr "Market ID is required")
  else
    .ok (HttpClient.get st ("/v0/markets/" ++ jsToStr marketId) [])

/-- markets.js `getBets(marketId)`. -/
def MarketsResource.getBets (st : HttpClientState) (marketId : JSVal) : Except SdkError Request :=
  if !(truthy marketId) then
    .error (.plainErr "Market ID is required")
  else
    .ok (HttpClient.get st ("/v0/markets/bets/" ++ jsToStr marketId) [])

/-- markets.js `getPositions(marketId)`. -/
def MarketsResource.getPositions (st : HttpClientState) (marketId : JSVal) : Except SdkError Request :=
  if !(truthy marketId) then
    .error (.plainErr "Market ID is required")
  else
    .ok (HttpClient.get st ("/v0/markets/positions/" ++ jsToStr marketId) [])

/-- markets.js `getLeaderboard(marketId)`. -/
def MarketsResource.getLeaderboard (st : HttpClientState) (marketId : JSVal) : Except SdkError Request :=
  if !(truthy marketId) then
    .error (.plainErr "Market ID is required")
  else
    .ok (HttpClient.get st ("/v0/markets/leaderboard/" ++ jsToStr marketId) [])

/-- markets.js `search(query)`. -/
def MarketsResource.search (st : HttpClientState) (query : JSVal) : Except SdkError Request :=
  if !(truthy query) then
    .error (.plainErr "Search query is required")
  else
    .ok (HttpClient.get st "/v0/markets/search" [("q", query)])

/-- markets.js `projectProbability({ marketId, amount, outcome })`: the
argument is destructured and revalidated as a fresh three-field object. -/
def MarketsResource.projectProbability (st : HttpClientState) (params : Obj) : Except SdkError Request :=
  let p : Obj := [("marketId", getProp params "marketId"),
                  ("amount", getProp params "amount"),
                  ("outcome", getProp params "outcome")]
  match validateRequired p ["marketId", "amount", "outcome"] with
  | .error e => .error e
  | .ok _ =>
      .ok (HttpClient.get st
        ("/v0/marketprojection/" ++ jsToStr (getProp params "marketId") ++ "/" ++
          jsToStr (getProp params "amount") ++ "/" ++
          jsToStr (getProp params "outcome") ++ "/") [])

/-- markets.js `getUserPositions(marketId, username)`. -/
def MarketsResource.getUserPositions (st : HttpClientState) (marketId username : JSVal) : Except SdkError Request :=
  match validateRequired [("marketId", marketId), ("username", username)] ["marketId", "username"] with
  | .error e => .error e
  | .ok _ =>
      .ok (HttpClient.get st
        ("/v0/markets/positions/" ++ jsToStr marketId ++ "/" ++ jsToStr username) [])

/-- markets.js `create(marketData)`: after validation, the body is
`{ ...marketData, resolutionDateTime: this.formatDate(marketData.resolutionDateTime) }`. -/
def MarketsResource.create (st : HttpClientState) (marketData : Obj) : Except SdkError Request :=
  match validateRequired marketData ["questionTitle", "description", "outcomeType", "resolutionDateTime"] with
  | .error e => .error e
  | .ok _ =>
      let data := setProp marketData "resolutionDateTime"
        (formatDate (getProp marketData "resolutionDateTime"))
      .ok (HttpClient.post st "/v0/create" data)

/-- markets.js `resolve(marketId, resolutionResult)`. -/
def MarketsResource.resolve (st : HttpClientState) (marketId resolutionResult : JSVal) : Except SdkError Request :=
  match validateRequired [("marketId", marketId), ("resolutionResult", resolutionResult)] ["marketId", "resolutionResult"] with
  | .error e => .error e
  | .ok _ =>
      .ok (HttpClient.post st ("/v0/resolve/" ++ jsToStr marketId) [("resolutionResult", resolutionResult)])

/-- users.js `getPublicInfo(username)`. -/
def UsersResource.getPublicInfo (st : HttpClientState) (username : JSVal) : Except SdkError Request :=
  if !(truthy username) then
    .error (.plainErr "Username is required")
  else
    .ok (HttpClient.get st ("/v0/userinfo/" ++ jsToStr username) [])

/-- auth.js `login(credentials)` up to its transport call (the token
capture from the response happens after the call returns and is modelled
by `HttpClient.setToken`). -/
def AuthResource.login (st : HttpClientState) (credentials : Obj) : Except SdkError Request :=
  match validateRequired credentials ["username", "password"] with
  | .error e => .error e
  | .ok _ =>
      if jsLengthLt (getProp credentials "username") 3 ||
          jsLengthGt (getProp credentials "username") 30 then
        .error (.plainErr "Username must be between 3 and 30 characters")
      else if jsLengthLt (getProp credentials "password") 1 then
        .error (.plainErr "Password must be at least 1 character")
      else
        .ok (HttpClient.post st "/v0/login" credentials)

/-- admin.js `createUser(userData)`. -/
def AdminResource.createUser (st : HttpClientState) (userData : Obj) : Except SdkError Request :=
  match validateRequired userData ["username", "displayName", "email", "password", "userType"] with
  | .error e => .error e
  | .ok _ =>
      if !(emailTest (getProp userData "email")) then
        .error (.plainErr "Invalid email format")
      else
        .ok (HttpClient.post st "/v0/admin/createuser" userData)

/-- A client in its freshly-constructed state, as the test suites build it:
`new HttpClient('http://localhost:8080')`. -/
def defaultClient : HttpClientState :=
  mkHttpClient "http://localhost:8080" { token := none, timeout := none, headers := [] }

/-- The 401 error of the SDK's errors test suite, used as a concrete
classification sample. -/
def sampleAuthError : SocialPredictError :=
  { message := JSVal.str "Unauthorized"
    statusCode := 401
    code := JSVal.str "AUTH_ERROR"
    data := none }

/-- The 401 login failure of the auth test suite: a response whose body
carries truthy `message` and `error` fields. -/
def sampleApiFailure : AxiosError :=
  { response := some (401, [("message", JSVal.str "Invalid username or password"),
      ("error", JSVal.str "INVALID_CREDENTIALS")])
    request := true
    code := none
    message := "Request failed with status code 401" }

/-- A 400 response whose body carries a truthy `message` but no `error`
field at all, so only the code falls back to its default. -/
def sampleMixedFailure : AxiosError :=
  { response := some (400, [("message", JSVal.str "Insufficient account balance")])
    request := true
    code := none
    message := "Request failed with status code 400" }

/-- A 500 response with an empty body: both fields fall back. -/
def sampleBareFailure : AxiosError :=
  { response := some (500, [])
    request := true
    code := none
    message := "Request failed with status code 500" }

/-- A timed-out request: no response, axios code ECONNABORTED. -/
def sampleTimeoutFailure : AxiosError :=
  { response := none
    request := false
    code := some "ECONNABORTED"
    message := "timeout of 10000ms exceeded" }

/-- A failure that is neither a response nor a network signal, with an
empty message. -/
def sampleUnknownFailure : AxiosError :=
  { response := none
    request := false
    code := none
    message := "" }

/-- Whether a resource-method outcome avoids `SocialPredictError`: it
either reaches its transport call or throws a plain `Error`. -/
def throwsOnlyPlainErrors (r : Except SdkError Request) : Bool :=
  match r with
  | .error (.spErr _) => false
  | _ => true

/-- Reading back the property just written. -/
theorem getProp_setProp_self (o : Obj) (k : String) (v : JSVal) :
    getProp (setProp o k v) k = v := by
  induction o with
  | nil => simp [setProp, getProp]
  | cons kv rest ih =>
      by_cases h : kv.1 = k
      · simp [setProp, getProp, h]
      · simp [setProp, getProp, h, ih]

/-- Writing one property leaves every other property unchanged. -/
theorem getProp_setProp_ne (o : Obj) (k k' : String) (v : JSVal) (h : k' ≠ k) :
    getProp (setProp o k v) k' = getProp o k' := by
  induction o with
  | nil => simp [setProp, getProp, Ne.symm h]
  | cons kv rest ih =>
      by_cases h0 : kv.1 = k
      · simp [setProp, getProp, h0, Ne.symm h]
      · by_cases h1 : kv.1 = k'
        · simp [setProp, getProp, h0, h1, h]
        · simp [setProp, getProp, h0, h1, ih]

/-- When some required parameter is missing, `validateRequired` throws the
plain error naming the whole missing set. -/
theorem validateRequired_eq_error (params : Obj) (required : List String)
    (h : missingParams params required ≠ []) :
    validateRequired params required =
      .error (.plainErr ("Missing required parameters: " ++
        String.intercalate ", " (missingParams params required))) := by
  have hl : 0 < (missingParams params required).length := List.length_pos.mpr h
  unfold validateRequired
  rw [if_pos hl]

/-- `validateRequired` either succeeds or throws a plain `Error`. -/
theorem validateRequired_cases (params : Obj) (required : List String) :
    validateRequired params required = .ok () ∨
    ∃ m, validateRequired params required = .error (.plainErr m) := by
  by_cases h : 0 < (missingParams params required).length
  · right; exact ⟨_, by unfold validateRequired; rw [if_pos h]⟩
  · left; unfold validateRequired; rw [if_neg h]

/-- Claim C4: whenever some required name is absent (undefined or null)
from the parameter object, `validateRequired` fails with a single plain
error whose message is exactly "Missing required parameters: " followed by
the comma-joined missing names; the missing set is an order-preserving
sublist of the required list and contains precisely the required names
whose value is absent, so the full missing set is reported in one
failure. -/
theorem c4_validate_required_reports_all (params : Obj) (required : List String)
    (h : ∃ n, n ∈ required ∧ isAbsent (getProp params n) = true) :
    validateRequired params required =
      .error (.plainErr ("Missing required parameters: " ++
        String.intercalate ", " (missingParams params required))) ∧
    List.Sublist (missingParams params required) required ∧
    ∀ n, n ∈ missingParams params required ↔
      n ∈ required ∧ isAbsent (getProp params n) = true := by
  obtain ⟨n, hn, ha⟩ := h
  have hmem : n ∈ missingParams params required := by
    simp only [missingParams]
    exact List.mem_filter.mpr ⟨hn, ha⟩
  refine ⟨validateRequired_eq_error _ _ (List.ne_nil_of_mem hmem), ?_, ?_⟩
  · exact List.filter_sublist _
  · intro m
    simp only [missingParams]
    exact List.mem_filter

/-- Claim C4 witness: with only `alpha` supplied, the missing set is
exactly `beta, gamma` in declared order and the thrown message joins it
after the fixed prefix. -/
theorem c4_validate_required_reports_all_witness :
    missingParams [("alpha", JSVal.num 1)] ["alpha", "beta", "gamma"] = ["beta", "gamma"] ∧
    validateRequired [("alpha", JSVal.num 1)] ["alpha", "beta", "gamma"] =
      .error (.plainErr "Missing required parameters: beta, gamma") := by
  refine ⟨rfl, ?_⟩
  have h := (c4_validate_required_reports_all [("alpha", JSVal.num 1)]
    ["alpha", "beta", "gamma"] ⟨"beta", by decide, by decide⟩).1
  exact h.trans (by decide)

/-- Claim C5: every classification predicate of `SocialPredictError` is a
pure function of the `statusCode` and `code` fields, with exactly the
documented characterizations. -/
theorem c5_predicates_pure (e : SocialPredictError) :
    (e.isNetworkError = true ↔ e.code = JSVal.str "NETWORK_ERROR") ∧
    (e.isAuthError = true ↔ (e.statusCode = 401 ∨ e.statusCode = 403)) ∧
    (e.isValidationError = true ↔ e.statusCode = 400) ∧
    (e.isNotFoundError = true ↔ e.statusCode = 404) ∧
    (e.isServerError = true ↔ 500 ≤ e.statusCode) := by
  refine ⟨?_, ?_, ?_, ?_, ?_⟩ <;>
    simp [SocialPredictError.isNetworkError, SocialPredictError.isAuthError,
      SocialPredictError.isValidationError, SocialPredictError.isNotFoundError,
      SocialPredictError.isServerError]

/-- Claim C7: `setToken` and `clearToken` touch only the token cell —
base URL, timeout and default headers are untouched — and after
`setToken t; clearToken()` the client is unauthenticated and a subsequent
request's headers stay exactly the default headers, with no Authorization
injected. -/
theorem c7_token_ops_frame (st : HttpClientState) (t : String) (h : Obj)
    (method path : String) (params body : Obj) :
    (HttpClient.setToken st t).baseURL = st.baseURL ∧
    (HttpClient.setToken st t).timeout = st.timeout ∧
    (HttpClient.setToken st t).defaultHeaders = st.defaultHeaders ∧
    (HttpClient.setToken st t).token = some t ∧
    (HttpClient.clearToken st).baseURL = st.baseURL ∧
    (HttpClient.clearToken st).timeout = st.timeout ∧
    (HttpClient.clearToken st).defaultHeaders = st.defaultHeaders ∧
    (HttpClient.clearToken st).token = none ∧
    isAuthenticated (HttpClient.clearToken (HttpClient.setToken st t)) = false ∧
    addAuthHeader (HttpClient.clearToken (HttpClient.setToken st t)).token h = h ∧
    (issueRequest (HttpClient.clearToken (HttpClient.setToken st t)) method path params body).headers =
      st.defaultHeaders := by
  simp [HttpClient.setToken, HttpClient.clearToken, isAuthenticated, tokenTruthy,
    addAuthHeader, issueRequest]

/-- Claim C8: `validateRequired` tests presence, not truthiness — any
value other than undefined/null keeps a name out of the missing set (in
particular 0, false and ""), and `placeBet` with amount 0 passes the
required-field check and fails only the positivity rule. -/
theorem c8_falsy_values_are_present (params : Obj) (required : List String) (n : String)
    (h : isAbsent (getProp params n) = false) :
    n ∉ missingParams params required ∧
    isAbsent (JSVal.num 0) = false ∧
    isAbsent (JSVal.bool false) = false ∧
    isAbsent (JSVal.str "") = false ∧
    BettingResource.placeBet defaultClient
      [("marketId", JSVal.num 1), ("amount", JSVal.num 0), ("outcome", JSVal.str "yes")] =
      .error (.plainErr "Bet amount must be greater than 0") := by
  refine ⟨?_, by decide, by decide, by decide, by decide⟩
  intro hmem
  have hm := (List.mem_filter.mp (by simpa only [missingParams] using hmem)).2
  rw [h] at hm
  exact Bool.false_ne_true hm

/-- Claim C8 witness: a required field stored as 0 is not missing. -/
theorem c8_falsy_values_are_present_witness :
    "amount" ∉ missingParams [("amount", JSVal.num 0)] ["amount"] :=
  (c8_falsy_values_are_present [("amount", JSVal.num 0)] ["amount"] "amount" (by decide)).1

/-- Claim C9: the single-argument read methods guard by truthiness: every
falsy identifier — 0 and "" included, not only null/undefined — makes
`markets.get`, `markets.getBets` and `betting.getUserPosition` throw
"Market ID is required" and `markets.search` throw "Search query is
required" locally, before any transport call. -/
theorem c9_falsy_identifier_guards (st : HttpClientState) (v : JSVal)
    (h : truthy v = false) :
    MarketsResource.get st v = .error (.plainErr "Market ID is required") ∧
    MarketsResource.getBets st v = .error (.plainErr "Market ID is required") ∧
    BettingResource.getUserPosition st v = .error (.plainErr "Market ID is required") ∧
    MarketsResource.search st v = .error (.plainErr "Search query is required") := by
  simp [MarketsResource.get, MarketsResource.getBets, BettingResource.getUserPosition,
    MarketsResource.search, h]

/-- Claim C9 witness: the guards fire at the number 0 and at the empty
string, the two falsy values that are not nullish. -/
theorem c9_falsy_identifier_guards_witness :
    (MarketsResource.get defaultClient (JSVal.num 0) = .error (.plainErr "Market ID is required") ∧
     MarketsResource.getBets defaultClient (JSVal.num 0) = .error (.plainErr "Market ID is required") ∧
     BettingResource.getUserPosition defaultClient (JSVal.num 0) = .error (.plainErr "Market ID is required") ∧
     MarketsResource.search defaultClient (JSVal.num 0) = .error (.plainErr "Search query is required")) ∧
    (MarketsResource.get defaultClient (JSVal.str "") = .error (.plainErr "Market ID is required") ∧
     MarketsResource.getBets defaultClient (JSVal.str "") = .error (.plainErr "Market ID is required") ∧
     BettingResource.getUserPosition defaultClient (JSVal.str "") = .error (.plainErr "Market ID is required") ∧
     MarketsResource.search defaultClient (JSVal.str "") = .error (.plainErr "Search query is required")) :=
  ⟨c9_falsy_identifier_guards defaultClient (JSVal.num 0) (by decide),
   c9_falsy_identifier_guards defaultClient (JSVal.str "") (by decide)⟩

/-- Claim C10: an empty-string token behaves as no token: the constructor
normalizes token "" to null, the request interceptor injects nothing for
token "" or null, and a client is authenticated exactly when its token is
a non-empty string. -/
theorem c10_empty_token_is_unset (h : Obj) :
    (mkHttpClient "http://localhost:8080"
      { token := some "", timeout := none, headers := [] }).token = none ∧
    addAuthHeader (some "") h = h ∧
    addAuthHeader none h = h ∧
    tokenTruthy (some "") = false ∧
    (∀ st : HttpClientState, isAuthenticated st = true ↔
      ∃ s, st.token = some s ∧ s ≠ "") := by
  refine ⟨by decide, by simp [addAuthHeader], rfl, rfl, ?_⟩
  intro st
  rcases hst : st.token with _ | s
  · simp [isAuthenticated, hst, tokenTruthy]
  · simp [isAuthenticated, hst, tokenTruthy]

/-- Claim C1 counterexample: the claim's "body's message field if present"
fails on a present-but-empty message: for a 400 response whose body holds
`message: ""` the field is present, yet the thrown error carries
"HTTP 400 Error", because the interceptor's `data.message || default` is a
truthiness test, not a presence test. -/
theorem c1_claim_counterexample :
    getProp [("message", JSVal.str ""), ("error", JSVal.str "VALIDATION_ERROR")] "message" =
      JSVal.str "" ∧
    JSVal.str "" ≠ JSVal.undef ∧
    (classifyError
      { response := some (400, [("message", JSVal.str ""), ("error", JSVal.str "VALIDATION_ERROR")])
        request := true
        code := none
        message := "Request failed with status code 400" }).message =
      JSVal.str "HTTP 400 Error" ∧
    JSVal.str "HTTP 400 Error" ≠ JSVal.str "" := by decide

/-- Claim C1 (amended: "if present" is "if truthy"): every transport
failure is classified into exactly one `SocialPredictError` in decision
order — for every received non-2xx response, whatever its body, the error
carries the status, the full body, body.message if truthy else
"HTTP <status> Error", and body.error if truthy else "API_ERROR", the two
fields falling back independently; otherwise a network-level failure
signal yields ("Network error - unable to reach server", 0,
"NETWORK_ERROR"); any other failure yields (its message if non-empty else
"Unexpected error", 0, "UNKNOWN_ERROR"). -/
theorem c1_error_classification (e : AxiosError) :
    (∀ status data, e.response = some (status, data) →
      (classifyError e).statusCode = status ∧
      (classifyError e).data = some data ∧
      (truthy (getProp data "message") = true →
        (classifyError e).message = getProp data "message") ∧
      (truthy (getProp data "message") = false →
        (classifyError e).message = JSVal.str ("HTTP " ++ toString status ++ " Error")) ∧
      (truthy (getProp data "error") = true →
        (classifyError e).code = getProp data "error") ∧
      (truthy (getProp data "error") = false →
        (classifyError e).code = JSVal.str "API_ERROR")) ∧
    (e.response = none → netSignal e = true →
      classifyError e =
        { message := JSVal.str "Network error - unable to reach server", statusCode := 0,
          code := JSVal.str "NETWORK_ERROR", data := none }) ∧
    (e.response = none → netSignal e = false →
      classifyError e =
        { message := JSVal.str (if e.message = "" then "Unexpected error" else e.message),
          statusCode := 0, code := JSVal.str "UNKNOWN_ERROR", data := none }) := by
  refine ⟨?_, ?_, ?_⟩
  · intro status data hr
    refine ⟨by simp [classifyError, hr], by simp [classifyError, hr], ?_, ?_, ?_, ?_⟩ <;>
      intro hc <;> simp [classifyError, hr, hc]
  · intro hr hn
    simp [classifyError, hr, hn]
  · intro hr hn
    simp [classifyError, hr, hn]

/-- Claim C1 witness: concrete failures covering every branch and both
fallback combinations — a 401 body with both fields truthy, a 400 body
with a truthy message but no error field (code falls back alone), a 500
body with no fields (both fall back), an aborted request, and a bare
failure with an empty message. -/
theorem c1_error_classification_witness :
    (classifyError sampleApiFailure).statusCode = 401 ∧
    (classifyError sampleApiFailure).message = JSVal.str "Invalid username or password" ∧
    (classifyError sampleApiFailure).code = JSVal.str "INVALID_CREDENTIALS" ∧
    (classifyError sampleMixedFailure).message = JSVal.str "Insufficient account balance" ∧
    (classifyError sampleMixedFailure).code = JSVal.str "API_ERROR" ∧
    (classifyError sampleBareFailure).message = JSVal.str "HTTP 500 Error" ∧
    (classifyError sampleBareFailure).code = JSVal.str "API_ERROR" ∧
    classifyError sampleTimeoutFailure =
      { message := JSVal.str "Network error - unable to reach server", statusCode := 0,
        code := JSVal.str "NETWORK_ERROR", data := none } ∧
    classifyError sampleUnknownFailure =
      { message := JSVal.str "Unexpected error", statusCode := 0,
        code := JSVal.str "UNKNOWN_ERROR", data := none } := by
  have hA := (c1_error_classification sampleApiFailure).1 401
    [("message", JSVal.str "Invalid username or password"),
      ("error", JSVal.str "INVALID_CREDENTIALS")] rfl
  have hM := (c1_error_classification sampleMixedFailure).1 400
    [("message", JSVal.str "Insufficient account balance")] rfl
  have hB := (c1_error_classification sampleBareFailure).1 500 [] rfl
  have hT := (c1_error_classification sampleTimeoutFailure).2.1 rfl (by decide)
  have hU := (c1_error_classification sampleUnknownFailure).2.2 rfl (by decide)
  exact ⟨hA.1, (hA.2.2.1 (by decide)).trans (by decide),
    (hA.2.2.2.2.1 (by decide)).trans (by decide),
    (hM.2.2.1 (by decide)).trans (by decide), hM.2.2.2.2.2 (by decide),
    (hB.2.2.2.1 (by decide)).trans (by decide), hB.2.2.2.2.2 (by decide),
    hT, hU.trans (by decide)⟩

/-- Claim C2 counterexample: the claim's "token is non-null" is too weak —
after `setToken("")` the token is the non-null empty string, the request
declares no Authorization header, and yet the outgoing request carries
none, because the interceptor tests `this.token` for truthiness. -/
theorem c2_claim_counterexample :
    (HttpClient.setToken defaultClient "").token = some "" ∧
    (some "" : Option String) ≠ none ∧
    getProp (HttpClient.get (HttpClient.setToken defaultClient "") "/v0/markets" []).headers
      "Authorization" = JSVal.undef := by decide

/-- Claim C2 (amended: "non-null" is "a non-empty string"): every request
issued through a transport verb while the token is a non-empty string and
the headers carry no truthy Authorization entry gets
`Authorization: Bearer <token>` injected; with no token set the headers
pass through unchanged, so no Authorization header is added.  All five
verb methods route through the same interceptor pipeline. -/
theorem c2_bearer_token_injection (st : HttpClientState) (method path : String)
    (params body : Obj) :
    (∀ t, st.token = some t → t ≠ "" →
      truthy (getProp st.defaultHeaders "Authorization") = false →
      getProp (issueRequest st method path params body).headers "Authorization" =
        JSVal.str ("Bearer " ++ t)) ∧
    (st.token = none →
      (issueRequest st method path params body).headers = st.defaultHeaders) ∧
    HttpClient.get st path params = issueRequest st "GET" path params [] ∧
    HttpClient.post st path body = issueRequest st "POST" path [] body ∧
    HttpClient.put st path body = issueRequest st "PUT" path [] body ∧
    HttpClient.patch st path body = issueRequest st "PATCH" path [] body ∧
    HttpClient.delete st path = issueRequest st "DELETE" path [] [] := by
  refine ⟨?_, ?_, rfl, rfl, rfl, rfl, rfl⟩
  · intro t ht hne hauth
    have hb : (t != "") = true := by simpa using hne
    simp [issueRequest, addAuthHeader, ht, hb, hauth, getProp_setProp_self]
  · intro ht
    simp [issueRequest, addAuthHeader, ht]

/-- Claim C2 witness: with token "tok123" the request carries the bearer
header; with no token the freshly-constructed default headers pass through
untouched. -/
theorem c2_bearer_token_injection_witness :
    getProp (issueRequest (HttpClient.setToken defaultClient "tok123") "GET" "/v0/markets" [] []).headers
      "Authorization" = JSVal.str "Bearer tok123" ∧
    (issueRequest defaultClient "GET" "/v0/markets" [] []).headers = defaultClient.defaultHeaders :=
  ⟨(c2_bearer_token_injection (HttpClient.setToken defaultClient "tok123") "GET" "/v0/markets" [] []).1
      "tok123" rfl (by decide) (by decide),
   (c2_bearer_token_injection defaultClient "GET" "/v0/markets" [] []).2.1 rfl⟩

/-- Claim C3 counterexample: a local validation failure is not an
`ErrorType` — `placeBet` with missing fields throws a plain `Error`, which
lies outside the `SocialPredictError` taxonomy. -/
theorem c3_claim_counterexample :
    BettingResource.placeBet defaultClient [("marketId", JSVal.num 1)] =
      .error (.plainErr "Missing required parameters: amount, outcome") ∧
    SdkError.isSocialPredictError
      (SdkError.plainErr "Missing required parameters: amount, outcome") = false := by decide

/-- Claim C3 (amended: the thrown value is a plain `Error`, not an
ErrorType): every local validation failure of every embedded resource
method is a plain `Error` thrown synchronously before the method's
transport call — an `Except.error` result, produced before any `Request`
exists — and never a `SocialPredictError`. -/
theorem c3_local_validation_plain (st : HttpClientState) (d : Obj) (v w : JSVal) :
    throwsOnlyPlainErrors (BettingResource.placeBet st d) = true ∧
    throwsOnlyPlainErrors (BettingResource.sellPosition st d) = true ∧
    throwsOnlyPlainErrors (BettingResource.getUserPosition st v) = true ∧
    throwsOnlyPlainErrors (MarketsResource.get st v) = true ∧
    throwsOnlyPlainErrors (MarketsResource.getBets st v) = true ∧
    throwsOnlyPlainErrors (MarketsResource.getPositions st v) = true ∧
    throwsOnlyPlainErrors (MarketsResource.getLeaderboard st v) = true ∧
    throwsOnlyPlainErrors (MarketsResource.search st v) = true ∧
    throwsOnlyPlainErrors (MarketsResource.projectProbability st d) = true ∧
    throwsOnlyPlainErrors (MarketsResource.getUserPositions st v w) = true ∧
    throwsOnlyPlainErrors (MarketsResource.create st d) = true ∧
    throwsOnlyPlainErrors (MarketsResource.resolve st v w) = true ∧
    throwsOnlyPlainErrors (UsersResource.getPublicInfo st v) = true ∧
    throwsOnlyPlainErrors (AuthResource.login st d) = true ∧
    throwsOnlyPlainErrors (AdminResource.createUser st d) = true := by
  refine ⟨?_, ?_, ?_, ?_, ?_, ?_, ?_, ?_, ?_, ?_, ?_, ?_, ?_, ?_, ?_⟩
  · rcases validateRequired_cases d ["marketId", "amount", "outcome"] with h | ⟨m, h⟩ <;>
      simp only [BettingResource.placeBet, h] <;> first | rfl | (split <;> rfl)
  · rcases validateRequired_cases d ["marketId", "amount", "outcome"] with h | ⟨m, h⟩ <;>
      simp only [BettingResource.sellPosition, h] <;> first | rfl | (split <;> rfl)
  · unfold BettingResource.getUserPosition; split <;> rfl
  · unfold MarketsResource.get; split <;> rfl
  · unfold MarketsResource.getBets; split <;> rfl
  · unfold MarketsResource.getPositions; split <;> rfl
  · unfold MarketsResource.getLeaderboard; split <;> rfl
  · unfold MarketsResource.search; split <;> rfl
  · rcases validateRequired_cases
        [("marketId", getProp d "marketId"), ("amount", getProp d "amount"),
          ("outcome", getProp d "outcome")] ["marketId", "amount", "outcome"] with h | ⟨m, h⟩ <;>
      simp only [MarketsResource.projectProbability, h] <;> rfl
  · rcases validateRequired_cases [("marketId", v), ("username", w)]
        ["marketId", "username"] with h | ⟨m, h⟩ <;>
      simp only [MarketsResource.getUserPositions, h] <;> rfl
  · rcases validateRequired_cases d
        ["questionTitle", "description", "outcomeType", "resolutionDateTime"] with h | ⟨m, h⟩ <;>
      simp only [MarketsResource.create, h] <;> rfl
  · rcases validateRequired_cases [("marketId", v), ("resolutionResult", w)]
        ["marketId", "resolutionResult"] with h | ⟨m, h⟩ <;>
      simp only [MarketsResource.resolve, h] <;> rfl
  · unfold UsersResource.getPublicInfo; split <;> rfl
  · rcases validateRequired_cases d ["username", "password"] with h | ⟨m, h⟩ <;>
      simp only [AuthResource.login, h] <;> first | rfl | (split <;> first | rfl | (split <;> rfl))
  · rcases validateRequired_cases d
        ["username", "displayName", "email", "password", "userType"] with h | ⟨m, h⟩ <;>
      simp only [AdminResource.createUser, h] <;> first | rfl | (split <;> rfl)

/-- Claim C6: `formatDate` renders every `Date` value as its ISO-8601 UTC
timestamp string and passes every string through unchanged; hence
`create(marketData)` with a native date in `resolutionDateTime` hands the
transport exactly the ISO string of that instant while every other field
of `marketData` is forwarded unchanged. -/
theorem c6_create_formats_date (st : HttpClientState) (marketData : Obj) (ms : Int)
    (hdt : getProp marketData "resolutionDateTime" = JSVal.date ms)
    (hok : validateRequired marketData
      ["questionTitle", "description", "outcomeType", "resolutionDateTime"] = .ok ()) :
    (∀ s, formatDate (JSVal.str s) = JSVal.str s) ∧
    (∀ m, formatDate (JSVal.date m) = JSVal.str (toISOString m)) ∧
    MarketsResource.create st marketData =
      .ok (HttpClient.post st "/v0/create"
        (setProp marketData "resolutionDateTime" (JSVal.str (toISOString ms)))) ∧
    getProp (setProp marketData "resolutionDateTime" (JSVal.str (toISOString ms)))
      "resolutionDateTime" = JSVal.str (toISOString ms) ∧
    (∀ k, k ≠ "resolutionDateTime" →
      getProp (setProp marketData "resolutionDateTime" (JSVal.str (toISOString ms))) k =
        getProp marketData k) := by
  refine ⟨fun s => rfl, fun m => rfl, ?_, getProp_setProp_self _ _ _,
    fun k hk => getProp_setProp_ne _ _ _ _ hk⟩
  simp only [MarketsResource.create, hok, hdt, formatDate]

/-- Claim C6 witness: the market of the SDK's own test suite, resolving at
2025-10-15T12:00:00Z, is sent with the byte-exact ISO rendering of that
instant, all other fields untouched. -/
theorem c6_create_formats_date_witness :
    toISOString 1760529600000 = "2025-10-15T12:00:00.000Z" ∧
    MarketsResource.create defaultClient
      [("questionTitle", JSVal.str "Will it snow next week?"),
       ("description", JSVal.str "Weather prediction"),
       ("outcomeType", JSVal.str "binary"),
       ("resolutionDateTime", JSVal.date 1760529600000)] =
      .ok (HttpClient.post defaultClient "/v0/create"
        (setProp
          [("questionTitle", JSVal.str "Will it snow next week?"),
           ("description", JSVal.str "Weather prediction"),
           ("outcomeType", JSVal.str "binary"),
           ("resolutionDateTime", JSVal.date 1760529600000)]
          "resolutionDateTime" (JSVal.str (toISOString 1760529600000)))) :=
  ⟨by decide,
   (c6_create_formats_date defaultClient
      [("questionTitle", JSVal.str "Will it snow next week?"),
       ("description", JSVal.str "Weather prediction"),
       ("outcomeType", JSVal.str "binary"),
       ("resolutionDateTime", JSVal.date 1760529600000)]
      1760529600000 (by decide) (by decide)).2.2.1⟩

/-- Claim C3 witness: the concrete missing-fields bet of the test suite
reaches no transport call and stays outside the ErrorType taxonomy. -/
theorem c3_local_validation_plain_witness :
    throwsOnlyPlainErrors (BettingResource.placeBet defaultClient [("marketId", JSVal.num 1)]) = true :=
  (c3_local_validation_plain defaultClient [("marketId", JSVal.num 1)] JSVal.undef JSVal.undef).1

/-- Claim C5 witness: the predicate characterization instantiated at the
SDK's own 401 test error. -/
theorem c5_predicates_pure_witness :
    (sampleAuthError.isNetworkError = true ↔ sampleAuthError.code = JSVal.str "NETWORK_ERROR") ∧
    (sampleAuthError.isAuthError = true ↔
      (sampleAuthError.statusCode = 401 ∨ sampleAuthError.statusCode = 403)) ∧
    (sampleAuthError.isValidationError = true ↔ sampleAuthError.statusCode = 400) ∧
    (sampleAuthError.isNotFoundError = true ↔ sampleAuthError.statusCode = 404) ∧
    (sampleAuthError.isServerError = true ↔ 500 ≤ sampleAuthError.statusCode) :=
  c5_predicates_pure sampleAuthError

/-- Claim C7 witness: after `setToken "T"` then `clearToken()`, a fresh
client reports unauthenticated. -/
theorem c7_token_ops_frame_witness :
    isAuthenticated (HttpClient.clearToken (HttpClient.setToken defaultClient "T")) = false :=
  (c7_token_ops_frame defaultClient "T" [] "GET" "/v0/markets" [] []).2.2.2.2.2.2.2.2.1

/-- Claim C10 witness: an empty-string token injects nothing into the
default header object. -/
theorem c10_empty_token_is_unset_witness :
    addAuthHeader (some "") [("Content-Type", JSVal.str "application/json")] =
      [("Content-Type", JSVal.str "application/json")] :=
  (c10_empty_token_is_unset [("Content-Type", JSVal.str "application/json")]).2.1

end SocialPredict
